import Mathlib

/-!
Verification of the vibus-react binding layer (hooks, context provider,
HOC adapters and utilities) against its specification.

The embedding models the observable protocol between a component and the
event bus: bus instances, ref cells and registered listeners are opaque
identities allocated from a single counter; a `World` records the bus
subscription tables, the ref-cell store, the trace of low-level bus calls
and the log of handler invocations.  The hooks from
`src/src/hooks/index.tsx`, the context accessors from
`src/src/context/index.tsx` and the utilities from `src/src/utils/index.ts`
are translated as explicit state-passing functions over `World`.
-/

namespace Vibus

/-- Payloads are opaque to this layer; modelled as natural numbers. -/
abbrev Payload := Nat

/-- A caller-supplied handler function, identified by its (reference) identity. -/
abbrev HandlerId := Nat

/-- A bus instance, identified by its identity (spec: identity matters, not value). -/
abbrev BusId := Nat

/-- A mutable ref cell (React useRef), identified by its identity. -/
abbrev CellId := Nat

/-- The function object actually handed to a low-level bus subscribe primitive:
either the stable wrapped proxy of `useEvent` (it dereferences a ref cell and
invokes the handler currently stored there), or a directly registered caller
handler (`useEventOnce`, `useEventAll`, the namespace facade). -/
inductive Listener where
  | proxy (cell : CellId)
  | direct (h : HandlerId)
  deriving DecidableEq

/-- One low-level subscription record held by a bus: the subscribed key
(`none` for a catch-all onAll subscription), whether it is a one-shot
subscription, the identity of the registered function, and the function. -/
structure Sub where
  key : Option String
  once : Bool
  listenerId : Nat
  listener : Listener
  deriving DecidableEq

/-- A low-level bus operation, recorded in the world trace. -/
inductive BusOp where
  | create (bus : BusId)
  | subscribe (bus : BusId) (key : String) (listenerId : Nat) (listener : Listener)
  | subscribeOnce (bus : BusId) (key : String) (listenerId : Nat) (listener : Listener)
  | subscribeAll (bus : BusId) (listenerId : Nat) (listener : Listener)
  | unsubscribe (bus : BusId) (listenerId : Nat)
  | unsubscribeFn (bus : BusId) (key : String) (listener : Listener)
  deriving DecidableEq

/-- The world: fresh-identity counter, bus subscription tables, ref-cell
store, trace of low-level bus calls, and handler invocation log (most
recent first).  Stores are association lists read through `assocGet`,
written by shadowing cons. -/
structure World where
  nextId : Nat
  buses : List (BusId × List Sub)
  cells : List (CellId × HandlerId)
  trace : List BusOp
  log : List (HandlerId × String × Payload)
  deriving DecidableEq

/-- Association-list read: first binding for the key wins. -/
def assocGet {α : Type} (l : List (Nat × α)) (k : Nat) : Option α :=
  match l with
  | [] => none
  | (a, v) :: rest => if a = k then some v else assocGet rest k

/-- The empty world. -/
def emptyWorld : World := ⟨0, [], [], [], []⟩

/-- Subscription table of a bus (empty when the bus id is unknown). -/
def busSubs (w : World) (b : BusId) : List Sub :=
  (assocGet w.buses b).getD []

/-- Write a bus subscription table (shadowing cons). -/
def setBus (w : World) (b : BusId) (subs : List Sub) : World :=
  { w with buses := (b, subs) :: w.buses }

/-- Write a ref cell (shadowing cons). -/
def setCell (w : World) (c : CellId) (h : HandlerId) : World :=
  { w with cells := (c, h) :: w.cells }

/-- Modelled from the spec: vibus-core is an external collaborator (spec §1,
§6); its construction function returns a fresh bus instance with an empty
subscription table.  Configuration only affects bus internals that are out
of scope, so it does not appear in the model. -/
def createEventBus (w : World) : BusId × World :=
  let b := w.nextId
  (b, { w with
          nextId := b + 1
          buses := (b, []) :: w.buses
          trace := .create b :: w.trace })

/-- Modelled from the spec: `subscribe(eventKey, fn) -> unsubscribeCapability`
(spec §6).  Registers the function at the end of the table (dispatch in
registration order) and returns the identity of the registered function;
the unsubscribe capability is removal of that identity from the bus. -/
def busOn (w : World) (b : BusId) (key : String) (ln : Listener) : Nat × World :=
  let lid := w.nextId
  let w := { w with
               nextId := lid + 1
               trace := .subscribe b key lid ln :: w.trace }
  (lid, setBus w b (busSubs w b ++ [⟨some key, false, lid, ln⟩]))

/-- Modelled from the spec: `subscribeOnce(eventKey, fn)` (spec §6); the bus
auto-removes the subscription after its first firing. -/
def busOnce (w : World) (b : BusId) (key : String) (ln : Listener) : Nat × World :=
  let lid := w.nextId
  let w := { w with
               nextId := lid + 1
               trace := .subscribeOnce b key lid ln :: w.trace }
  (lid, setBus w b (busSubs w b ++ [⟨some key, true, lid, ln⟩]))

/-- Modelled from the spec: `subscribeAll(fn)` (spec §6); the handler
receives the event key alongside the payload on every emission. -/
def busOnAll (w : World) (b : BusId) (ln : Listener) : Nat × World :=
  let lid := w.nextId
  let w := { w with
               nextId := lid + 1
               trace := .subscribeAll b lid ln :: w.trace }
  (lid, setBus w b (busSubs w b ++ [⟨none, false, lid, ln⟩]))

/-- Modelled from the spec: the unsubscribe capability returned by the
subscribe primitives — remove the registered function identity from the
bus.  Removing an identity that is no longer present is a no-op (spec §4.3:
one-shot unsubscribe after the bus already fired must not error). -/
def busOff (w : World) (b : BusId) (lid : Nat) : World :=
  let w := { w with trace := .unsubscribe b lid :: w.trace }
  setBus w b ((busSubs w b).filter fun s => s.listenerId ≠ lid)

/-- Modelled from the spec: `unsubscribe(eventKey, fn)` (spec §6), used
directly by the namespace facade's `off` — remove the subscriptions for
that exact key and function. -/
def busOffFn (w : World) (b : BusId) (key : String) (ln : Listener) : World :=
  let w := { w with trace := .unsubscribeFn b key ln :: w.trace }
  setBus w b ((busSubs w b).filter fun s => ¬(s.key = some key ∧ s.listener = ln))

/-- Invoke a registered function: a direct handler is invoked as such; the
stable proxy dereferences its ref cell and invokes the handler currently
stored there.  The invocation is appended to the log. -/
def invokeListener (w : World) (ln : Listener) (key : String) (p : Payload) : World :=
  match ln with
  | .direct h => { w with log := (h, key, p) :: w.log }
  | .proxy c =>
    match assocGet w.cells c with
    | some h => { w with log := (h, key, p) :: w.log }
    | none => w

/-- One pass of emission over a subscription table: invoke every
subscription matching the key (exact key match, or a catch-all
subscription), dropping one-shot subscriptions that fired. -/
def emitStep (key : String) (p : Payload) (w : World) :
    List Sub → World × List Sub
  | [] => (w, [])
  | s :: rest =>
    if s.key = some key ∨ s.key = none then
      let w1 := invokeListener w s.listener key p
      let r := emitStep key p w1 rest
      (r.1, if s.once then r.2 else s :: r.2)
    else
      let r := emitStep key p w rest
      (r.1, s :: r.2)

/-- Modelled from the spec: `emit(eventKey, payload?)` (spec §6) —
synchronous dispatch to every matching subscription of the bus, in
registration order. -/
def emit (w : World) (b : BusId) (key : String) (p : Payload) : World :=
  let r := emitStep key p w (busSubs w b)
  setBus r.1 b r.2

/-! ### Context (`src/src/context/index.tsx`) -/

/-- Translation of `EventBusContextType` from `src/src/types`: the context
value carries the provided bus instance. -/
structure EventBusContextType where
  eventBus : BusId
  deriving DecidableEq

/-- Translation of `useEventBusContext` from `src/src/context/index.tsx`:
reading the context outside any provider throws
(`Except.error` models the thrown `Error`); inside a provider it returns
the provider's context value. -/
def useEventBusContext (ctx : Option EventBusContextType) :
    Except String EventBusContextType :=
  match ctx with
  | none => .error "useEventBusContext must be used within an EventBusProvider"
  | some context => .ok context

/-- Translation of `useCurrentEventBus` from `src/src/hooks/index.tsx`:
`useEventBusContext().eventBus`. -/
def useCurrentEventBus (ctx : Option EventBusContextType) :
    Except String BusId :=
  (useEventBusContext ctx).map (fun c => c.eventBus)

/-! ### Hooks (`src/src/hooks/index.tsx`) -/

/-- Translation of `useEventBusInstance`: try `useEventBusContext()` and
return `options?.eventBus || context.eventBus`; when the context read
throws (no provider), return `options?.eventBus || createEventBus()`.
The resolver runs in render, on every render; it is not memoized. -/
def useEventBusInstance (options : Option BusId)
    (ctx : Option EventBusContextType) (w : World) : BusId × World :=
  match useEventBusContext ctx with
  | .ok context => (options.getD context.eventBus, w)
  | .error _ =>
    match options with
    | some b => (b, w)
    | none => createEventBus w

/-- Per-instance hook state of `useEvent`: the `handlerRef` cell, the
dependency snapshots of its two effects (`[handler, ...dependencies]` and
`[event, eventBus]`), and the identity of the `wrappedHandler` currently
registered with the bus (the stored unsubscribe capability removes that
identity from the bus of the second snapshot). -/
structure UseEventState where
  cell : CellId
  eff1Deps : HandlerId × List Nat
  eff2Deps : String × BusId
  listenerId : Nat
  deriving DecidableEq

/-- Mount of `useEvent` with an already-resolved bus: `useRef(handler)`
allocates the cell; the first effect stores the handler in the cell; the
second effect registers the stable `wrappedHandler` proxy with
`eventBus.on(event, wrappedHandler)` and keeps the unsubscribe capability. -/
def useEvent_mount (event : String) (handler : HandlerId) (deps : List Nat)
    (bus : BusId) (w : World) : UseEventState × World :=
  let cell := w.nextId
  let w := { w with nextId := cell + 1, cells := (cell, handler) :: w.cells }
  let w := setCell w cell handler
  let r := busOn w bus event (.proxy cell)
  (⟨cell, (handler, deps), (event, bus), r.1⟩, r.2)

/-- Re-render of a mounted `useEvent`: React first runs the cleanups of the
effects whose dependencies changed, then re-runs them in declaration
order.  The first effect (deps `[handler, ...dependencies]`) refreshes the
ref cell; the second effect (deps `[event, eventBus]`) unsubscribes from
the old pair and subscribes a fresh proxy to the new one. -/
def useEvent_update (st : UseEventState) (event : String) (handler : HandlerId)
    (deps : List Nat) (bus : BusId) (w : World) : UseEventState × World :=
  let w := if st.eff2Deps = (event, bus) then w
           else busOff w st.eff2Deps.2 st.listenerId
  let s1 := if st.eff1Deps = (handler, deps) then (st, w)
            else ({ st with eff1Deps := (handler, deps) }, setCell w st.cell handler)
  let st := s1.1
  let w := s1.2
  if st.eff2Deps = (event, bus) then (st, w)
  else
    let r := busOn w bus event (.proxy st.cell)
    ({ st with eff2Deps := (event, bus), listenerId := r.1 }, r.2)

/-- Unmount of `useEvent`: the second effect's cleanup runs — the stored
unsubscribe capability removes the registered proxy from the bus. -/
def useEvent_unmount (st : UseEventState) (w : World) : World :=
  busOff w st.eff2Deps.2 st.listenerId

/-- A sequence of re-renders of a mounted `useEvent` in which the event key
and the resolved bus stay fixed and only the handler reference and the
dependency list vary (one list entry per render). -/
def rendersFold (st : UseEventState) (event : String) (bus : BusId)
    (steps : List (HandlerId × List Nat)) (w : World) : UseEventState × World :=
  steps.foldl (fun r step => useEvent_update r.1 event step.1 step.2 bus r.2) (st, w)

/-- Mount of `useEvent` followed by a sequence of handler-only re-renders. -/
def useEvent_run (event : String) (handler : HandlerId) (deps : List Nat)
    (bus : BusId) (steps : List (HandlerId × List Nat)) (w : World) :
    UseEventState × World :=
  let m := useEvent_mount event handler deps bus w
  rendersFold m.1 event bus steps m.2

/-- Per-instance hook state of `useEventOnce`: the dependency snapshot of
its single effect (`[event, handler, eventBus]` — the handler itself is a
dependency) and the identity of the directly registered handler. -/
structure UseEventOnceState where
  effDeps : String × HandlerId × BusId
  listenerId : Nat
  deriving DecidableEq

/-- Mount of `useEventOnce`: `eventBus.once(event, handler)` registers the
caller's handler directly — there is no ref cell and no proxy. -/
def useEventOnce_mount (event : String) (handler : HandlerId) (bus : BusId)
    (w : World) : UseEventOnceState × World :=
  let r := busOnce w bus event (.direct handler)
  (⟨(event, handler, bus), r.1⟩, r.2)

/-- Re-render of a mounted `useEventOnce`: the effect lists the handler in
its dependency array, so any change of event, handler or bus identity runs
the cleanup (unsubscribe) and subscribes again. -/
def useEventOnce_update (st : UseEventOnceState) (event : String)
    (handler : HandlerId) (bus : BusId) (w : World) : UseEventOnceState × World :=
  if st.effDeps = (event, handler, bus) then (st, w)
  else
    let w := busOff w st.effDeps.2.2 st.listenerId
    let r := busOnce w bus event (.direct handler)
    (⟨(event, handler, bus), r.1⟩, r.2)

/-- Per-instance hook state of `useEventAll`: the dependency snapshot of
its single effect (`[handler, eventBus]`) and the identity of the directly
registered handler. -/
structure UseEventAllState where
  effDeps : HandlerId × BusId
  listenerId : Nat
  deriving DecidableEq

/-- Mount of `useEventAll`: `eventBus.onAll(handler)` registers the
caller's handler directly. -/
def useEventAll_mount (handler : HandlerId) (bus : BusId) (w : World) :
    UseEventAllState × World :=
  let r := busOnAll w bus (.direct handler)
  (⟨(handler, bus), r.1⟩, r.2)

/-- Re-render of a mounted `useEventAll`: the effect lists the handler in
its dependency array, so a handler identity change runs the cleanup
(unsubscribe) and subscribes again. -/
def useEventAll_update (st : UseEventAllState) (handler : HandlerId)
    (bus : BusId) (w : World) : UseEventAllState × World :=
  if st.effDeps = (handler, bus) then (st, w)
  else
    let w := busOff w st.effDeps.2 st.listenerId
    let r := busOnAll w bus (.direct handler)
    (⟨(handler, bus), r.1⟩, r.2)

/-! ### Provider (`src/src/context/index.tsx`) -/

/-- Translation of the bus choice inside `EventBusProvider`:
`externalEventBus ? externalEventBus : config ? createEventBus(config) : globalEventBus`.
A bus instance is an object and hence always truthy; the config record is
opaque and modelled as a number (only its identity matters here). -/
def providerChooseBus (externalEventBus : Option BusId) (config : Option Nat)
    (globalEventBus : BusId) (w : World) : BusId × World :=
  match externalEventBus with
  | some b => (b, w)
  | none =>
    match config with
    | some _ => createEventBus w
    | none => (globalEventBus, w)

/-- Memo state of `EventBusProvider`: the `useMemo` dependency snapshot
`[externalEventBus, config, globalEventBus]` and the memoized bus choice. -/
structure ProviderState where
  deps : Option BusId × Option Nat × BusId
  eventBus : BusId
  deriving DecidableEq

/-- Render of `EventBusProvider`, translated from
`src/src/context/index.tsx`: the bus choice is wrapped in `useMemo` with
dependencies `[externalEventBus, config, globalEventBus]`, so it is
recomputed only when one of those identities changes. -/
def EventBusProvider_render (prev : Option ProviderState)
    (externalEventBus : Option BusId) (config : Option Nat)
    (globalEventBus : BusId) (w : World) : ProviderState × World :=
  match prev with
  | some st =>
    if st.deps = (externalEventBus, config, globalEventBus) then (st, w)
    else
      let r := providerChooseBus externalEventBus config globalEventBus w
      (⟨(externalEventBus, config, globalEventBus), r.1⟩, r.2)
  | none =>
    let r := providerChooseBus externalEventBus config globalEventBus w
    (⟨(externalEventBus, config, globalEventBus), r.1⟩, r.2)

/-! ### Utilities (`src/src/utils/index.ts`) -/

/-- The facade returned by `createEventNamespace`: four closures over the
prefix and the captured bus. -/
structure NamespaceFacade where
  onM : String → Listener → World → Nat × World
  off : String → Listener → World → World
  emit : String → Payload → World → World
  once : String → Listener → World → Nat × World

/-- Translation of `createEventNamespace` from `src/src/utils/index.ts`:
each method prepends the template literal prefix to the event key and
delegates to the corresponding primitive of the captured bus (the source
method named like the subscribe keyword is written `onM` here). -/
def createEventNamespace (ns : String) (bus : BusId) : NamespaceFacade where
  onM := fun event handler w => busOn w bus (ns ++ ":" ++ event) handler
  off := fun event handler w => busOffFn w bus (ns ++ ":" ++ event) handler
  emit := fun event payload w => emit w bus (ns ++ ":" ++ event) payload
  once := fun event handler w => busOnce w bus (ns ++ ":" ++ event) handler

/-- Implementation currently sitting in a bus object's `emit` method slot:
the bus's own primitive, or the logging wrapper installed by
`withEventLogger` around an inner implementation. -/
inductive EmitImpl where
  | base
  | logged (inner : EmitImpl)
  deriving DecidableEq

/-- A bus object as seen by `withEventLogger`: its method slots.  The other
capabilities are opaque, identified by their identity; only the `emit`
slot is ever rewritten. -/
structure BusObject where
  onSlot : Nat
  offSlot : Nat
  onceSlot : Nat
  onAllSlot : Nat
  emitSlot : EmitImpl
  deriving DecidableEq

/-- In-place replacement of the `emit` slot of the bus object stored at
key `b`: every other binding of the heap is returned as it is. -/
def updateEmitSlot (l : List (Nat × BusObject)) (b : Nat) :
    List (Nat × BusObject) :=
  match l with
  | [] => []
  | (a, o) :: rest =>
    if a = b then (a, { o with emitSlot := .logged o.emitSlot }) :: updateEmitSlot rest b
    else (a, o) :: updateEmitSlot rest b

/-- Translation of `withEventLogger` from `src/src/utils/index.ts` over a
heap of bus objects: when `enabled` is false the bus is returned
unmodified; otherwise the very same bus object's `emit` slot is replaced
in place by a wrapper around the original implementation, and the same
bus (identity) is returned. -/
def withEventLogger (heap : List (Nat × BusObject)) (b : Nat)
    (enabled : Bool) : Nat × List (Nat × BusObject) :=
  if !enabled then (b, heap)
  else (b, updateEmitSlot heap b)

/-- Semantics of an `emit` method slot: run an emission of `key` with
payload `p` and return the console log lines produced (in order) together
with the key and payload finally handed to the bus's base primitive.  The
logging wrapper logs the event and payload, then delegates to the original
implementation with the same arguments. -/
def runEmit : EmitImpl → String → Payload →
    List (String × Payload) × (String × Payload)
  | .base, key, p => ([], (key, p))
  | .logged inner, key, p =>
    let r := runEmit inner key p
    ((key, p) :: r.1, r.2)

/-! ### Trace counting -/

/-- Whether a trace entry is a persistent subscribe call to bus `b` for key `k`. -/
def isSubscribeTo (b : BusId) (k : String) : BusOp → Bool
  | .subscribe b2 k2 _ _ => b2 == b && k2 == k
  | _ => false

/-- Number of persistent subscribe calls to bus `b` for key `k` in a trace. -/
def subscribeCallCount (tr : List BusOp) (b : BusId) (k : String) : Nat :=
  (tr.filter (isSubscribeTo b k)).length

/-- Whether a trace entry is a one-shot subscribe call to bus `b` for key `k`. -/
def isSubscribeOnceTo (b : BusId) (k : String) : BusOp → Bool
  | .subscribeOnce b2 k2 _ _ => b2 == b && k2 == k
  | _ => false

/-- Number of one-shot subscribe calls to bus `b` for key `k` in a trace. -/
def subscribeOnceCallCount (tr : List BusOp) (b : BusId) (k : String) : Nat :=
  (tr.filter (isSubscribeOnceTo b k)).length

/-- Whether a trace entry is a catch-all subscribe call on bus `b`. -/
def isSubscribeAllOn (b : BusId) : BusOp → Bool
  | .subscribeAll b2 _ _ => b2 == b
  | _ => false

/-- Number of catch-all subscribe calls on bus `b` in a trace. -/
def subscribeAllCallCount (tr : List BusOp) (b : BusId) : Nat :=
  (tr.filter (isSubscribeAllOn b)).length

/-- Whether a trace entry is an unsubscribe call on bus `b`. -/
def isUnsubscribeOn (b : BusId) : BusOp → Bool
  | .unsubscribe b2 _ => b2 == b
  | _ => false

/-- Number of unsubscribe calls on bus `b` in a trace. -/
def unsubscribeCallCount (tr : List BusOp) (b : BusId) : Nat :=
  (tr.filter (isUnsubscribeOn b)).length

/-- Whether a trace entry is a bus construction. -/
def isCreate : BusOp → Bool
  | .create _ => true
  | _ => false

/-- Number of bus constructions in a trace. -/
def createCount (tr : List BusOp) : Nat :=
  (tr.filter isCreate).length

/-- Number of subscriptions for key `k` in a subscription table. -/
def countKey (subs : List Sub) (k : String) : Nat :=
  (subs.filter fun s => s.key == some k).length

/-! ### Store lemmas -/

theorem assocGet_cons_self {α : Type} (k : Nat) (v : α) (l : List (Nat × α)) :
    assocGet ((k, v) :: l) k = some v := by
  simp [assocGet]

theorem assocGet_cons_ne {α : Type} {a k : Nat} (v : α) (l : List (Nat × α))
    (h : a ≠ k) : assocGet ((a, v) :: l) k = assocGet l k := by
  simp [assocGet, h]

/-! ### The useEvent state machine on a fixed (event key, bus) pair -/

/-- A re-render of `useEvent` in which the (event key, resolved bus) pair
is unchanged touches neither the bus tables nor the trace nor the log: it
only refreshes the ref cell, which afterwards holds the handler of this
render. -/
theorem useEvent_update_same (st : UseEventState) (event : String)
    (handler : HandlerId) (deps : List Nat) (bus : BusId) (w : World)
    (hpair : st.eff2Deps = (event, bus))
    (hcur : assocGet w.cells st.cell = some st.eff1Deps.1) :
    (useEvent_update st event handler deps bus w).1
        = { st with eff1Deps := (handler, deps) } ∧
    (useEvent_update st event handler deps bus w).2.nextId = w.nextId ∧
    (useEvent_update st event handler deps bus w).2.buses = w.buses ∧
    (useEvent_update st event handler deps bus w).2.trace = w.trace ∧
    (useEvent_update st event handler deps bus w).2.log = w.log ∧
    assocGet (useEvent_update st event handler deps bus w).2.cells st.cell
        = some handler := by
  by_cases h1 : st.eff1Deps = (handler, deps)
  · have hh : st.eff1Deps.1 = handler := by rw [h1]
    rw [hh] at hcur
    cases st
    simp_all [useEvent_update]
  · cases st
    simp_all [useEvent_update, setCell, assocGet_cons_self]

/-- Across any sequence of re-renders in which the (event key, resolved
bus) pair is unchanged, the hook state keeps its cell and its registered
listener identity, the world keeps its bus tables, trace and log, and the
ref cell ends up holding the handler of the last render. -/
theorem rendersFold_same (event : String) (bus : BusId)
    (steps : List (HandlerId × List Nat)) :
    ∀ (st : UseEventState) (w : World),
      st.eff2Deps = (event, bus) →
      assocGet w.cells st.cell = some st.eff1Deps.1 →
      (rendersFold st event bus steps w).1
          = { st with eff1Deps := steps.getLastD st.eff1Deps } ∧
      (rendersFold st event bus steps w).2.nextId = w.nextId ∧
      (rendersFold st event bus steps w).2.buses = w.buses ∧
      (rendersFold st event bus steps w).2.trace = w.trace ∧
      (rendersFold st event bus steps w).2.log = w.log ∧
      assocGet (rendersFold st event bus steps w).2.cells st.cell
          = some (steps.getLastD st.eff1Deps).1 := by
  induction steps with
  | nil =>
    intro st w hpair hcur
    simp [rendersFold, List.getLastD, hcur]
  | cons s rest ih =>
    intro st w hpair hcur
    have h := useEvent_update_same st event s.1 s.2 bus w hpair hcur
    have hfold : rendersFold st event bus (s :: rest) w
        = rendersFold (useEvent_update st event s.1 s.2 bus w).1 event bus rest
            (useEvent_update st event s.1 s.2 bus w).2 := by
      simp [rendersFold]
    have hpair2 : (useEvent_update st event s.1 s.2 bus w).1.eff2Deps
        = (event, bus) := by
      rw [h.1]
      exact hpair
    have hcell : (useEvent_update st event s.1 s.2 bus w).1.cell = st.cell := by
      rw [h.1]
    have hcur2 : assocGet (useEvent_update st event s.1 s.2 bus w).2.cells
        (useEvent_update st event s.1 s.2 bus w).1.cell
        = some (useEvent_update st event s.1 s.2 bus w).1.eff1Deps.1 := by
      rw [hcell, h.1]
      exact h.2.2.2.2.2
    have hr := ih (useEvent_update st event s.1 s.2 bus w).1
      (useEvent_update st event s.1 s.2 bus w).2 hpair2 hcur2
    rw [hfold]
    refine ⟨?_, ?_, ?_, ?_, ?_, ?_⟩
    · rw [hr.1, h.1, List.getLastD_cons]
    · rw [hr.2.1, h.2.1]
    · rw [hr.2.2.1, h.2.2.1]
    · rw [hr.2.2.2.1, h.2.2.2.1]
    · rw [hr.2.2.2.2.1, h.2.2.2.2.1]
    · rw [hcell] at hr
      rw [hr.2.2.2.2.2, h.1, List.getLastD_cons]

/-- Characterization of a `useEvent` mount onto a bus whose subscription
table is empty: the ref cell is allocated and filled, and the stable proxy
is registered as the single subscription of the bus. -/
theorem useEvent_mount_spec (event : String) (handler : HandlerId)
    (deps : List Nat) (bus : BusId) (w : World)
    (hbus : assocGet w.buses bus = some []) :
    useEvent_mount event handler deps bus w =
      (⟨w.nextId, (handler, deps), (event, bus), w.nextId + 1⟩,
       { nextId := w.nextId + 2
         buses := (bus, [⟨some event, false, w.nextId + 1, .proxy w.nextId⟩])
             :: w.buses
         cells := (w.nextId, handler) :: (w.nextId, handler) :: w.cells
         trace := .subscribe bus event (w.nextId + 1) (.proxy w.nextId)
             :: w.trace
         log := w.log }) := by
  simp [useEvent_mount, setCell, busOn, setBus, busSubs, hbus]

/-! ### Claim theorems -/

/-- C1: for every render sequence in which only the caller's handler
reference or dependency-list entries change while the event key and the
resolved bus stay the same, `useEvent` makes exactly one low-level
subscribe call to that bus for that key, and — at every moment of the
sequence, since every prefix of such a render sequence is itself such a
sequence — exactly one low-level subscription exists on the bus for the
key. -/
theorem useEvent_single_subscription (event : String) (handler : HandlerId)
    (deps : List Nat) (bus : BusId) (steps : List (HandlerId × List Nat))
    (w : World) (hbus : assocGet w.buses bus = some [])
    (htrace : subscribeCallCount w.trace bus event = 0) :
    subscribeCallCount (useEvent_run event handler deps bus steps w).2.trace
        bus event = 1 ∧
    countKey (busSubs (useEvent_run event handler deps bus steps w).2 bus)
        event = 1 := by
  have hm := useEvent_mount_spec event handler deps bus w hbus
  have hrun : useEvent_run event handler deps bus steps w
      = rendersFold (useEvent_mount event handler deps bus w).1 event bus steps
          (useEvent_mount event handler deps bus w).2 := rfl
  have hfold := rendersFold_same event bus steps
    (useEvent_mount event handler deps bus w).1
    (useEvent_mount event handler deps bus w).2
    (by rw [hm]) (by rw [hm]; exact assocGet_cons_self ..)
  have ht : (useEvent_mount event handler deps bus w).2.trace
      = .subscribe bus event (w.nextId + 1) (.proxy w.nextId) :: w.trace := by
    rw [hm]
  have hbs : (useEvent_mount event handler deps bus w).2.buses
      = (bus, [⟨some event, false, w.nextId + 1, .proxy w.nextId⟩]) :: w.buses := by
    rw [hm]
  have hcnt : ∀ (tr : List BusOp) (l : Nat) (ln : Listener),
      subscribeCallCount (.subscribe bus event l ln :: tr) bus event
        = subscribeCallCount tr bus event + 1 := by
    intro tr l ln
    simp [subscribeCallCount, isSubscribeTo]
  constructor
  · rw [hrun, hfold.2.2.2.1, ht, hcnt, htrace]
  · rw [hrun]
    simp only [busSubs]
    rw [hfold.2.2.1, hbs, assocGet_cons_self]
    simp [countKey]

/-- Witness for C1: a concrete bus, a mount with handler 5 and two
re-renders changing only the handler (6 then 7) on the same key and bus. -/
theorem useEvent_single_subscription_witness :
    assocGet (createEventBus emptyWorld).2.buses (createEventBus emptyWorld).1
        = some [] ∧
    subscribeCallCount (createEventBus emptyWorld).2.trace
        (createEventBus emptyWorld).1 "k" = 0 ∧
    (subscribeCallCount
        (useEvent_run "k" 5 [] (createEventBus emptyWorld).1 [(6, []), (7, [])]
          (createEventBus emptyWorld).2).2.trace
        (createEventBus emptyWorld).1 "k" = 1 ∧
      countKey
        (busSubs
          (useEvent_run "k" 5 [] (createEventBus emptyWorld).1 [(6, []), (7, [])]
            (createEventBus emptyWorld).2).2
          (createEventBus emptyWorld).1) "k" = 1) :=
  ⟨by decide, by decide,
    useEvent_single_subscription "k" 5 [] (createEventBus emptyWorld).1
      [(6, []), (7, [])] (createEventBus emptyWorld).2 (by decide) (by decide)⟩

/-- C5: across a `useEvent` lifetime on a fixed (event key, bus) pair the
bus-registered function has a fixed identity — after any sequence of
handler-changing re-renders the registered listener identity is the one
registered at mount and the bus holds exactly that one stable proxy — and
an emission delivered through it invokes the caller's latest handler
reference. -/
theorem useEvent_stable_proxy_invokes_latest (event : String)
    (handler : HandlerId) (deps : List Nat) (bus : BusId)
    (steps : List (HandlerId × List Nat)) (w : World) (p : Payload)
    (hbus : assocGet w.buses bus = some []) :
    (useEvent_run event handler deps bus steps w).1.listenerId
        = (useEvent_mount event handler deps bus w).1.listenerId ∧
    busSubs (useEvent_run event handler deps bus steps w).2 bus
        = [⟨some event, false,
            (useEvent_run event handler deps bus steps w).1.listenerId,
            .proxy (useEvent_run event handler deps bus steps w).1.cell⟩] ∧
    (emit (useEvent_run event handler deps bus steps w).2 bus event p).log
        = ((steps.getLastD (handler, deps)).1, event, p)
            :: (useEvent_run event handler deps bus steps w).2.log := by
  have hm := useEvent_mount_spec event handler deps bus w hbus
  have hrun : useEvent_run event handler deps bus steps w
      = rendersFold (useEvent_mount event handler deps bus w).1 event bus steps
          (useEvent_mount event handler deps bus w).2 := rfl
  have hfold := rendersFold_same event bus steps
    (useEvent_mount event handler deps bus w).1
    (useEvent_mount event handler deps bus w).2
    (by rw [hm]) (by rw [hm]; exact assocGet_cons_self ..)
  have hbs : (useEvent_mount event handler deps bus w).2.buses
      = (bus, [⟨some event, false, w.nextId + 1, .proxy w.nextId⟩]) :: w.buses := by
    rw [hm]
  have hlid : (useEvent_run event handler deps bus steps w).1.listenerId
      = (useEvent_mount event handler deps bus w).1.listenerId := by
    rw [hrun, hfold.1]
  have hcell : (useEvent_run event handler deps bus steps w).1.cell
      = (useEvent_mount event handler deps bus w).1.cell := by
    rw [hrun, hfold.1]
  have heff1 : (useEvent_mount event handler deps bus w).1.eff1Deps
      = (handler, deps) := by rw [hm]
  have hsubs : busSubs (useEvent_run event handler deps bus steps w).2 bus
      = [⟨some event, false,
          (useEvent_run event handler deps bus steps w).1.listenerId,
          .proxy (useEvent_run event handler deps bus steps w).1.cell⟩] := by
    simp only [busSubs]
    rw [hrun, hfold.2.2.1, hbs, assocGet_cons_self]
    rw [← hrun, hlid, hcell, hm]
    simp
  refine ⟨hlid, hsubs, ?_⟩
  have hc : assocGet (useEvent_run event handler deps bus steps w).2.cells
      (useEvent_run event handler deps bus steps w).1.cell
      = some (steps.getLastD (handler, deps)).1 := by
    rw [hrun, hfold.1]
    have := hfold.2.2.2.2.2
    rw [heff1] at this
    exact this
  rw [emit, hsubs]
  simp only [emitStep, invokeListener]
  rw [hc]
  simp [setBus]

/-- Witness for C5: a concrete bus, mount with handler 5, two re-renders
swapping the handler to 6 then 7, then one emission with payload 9. -/
theorem useEvent_stable_proxy_invokes_latest_witness :
    assocGet (createEventBus emptyWorld).2.buses (createEventBus emptyWorld).1
        = some [] ∧
    ((useEvent_run "k" 5 [] (createEventBus emptyWorld).1 [(6, []), (7, [])]
          (createEventBus emptyWorld).2).1.listenerId
        = (useEvent_mount "k" 5 [] (createEventBus emptyWorld).1
            (createEventBus emptyWorld).2).1.listenerId ∧
      busSubs (useEvent_run "k" 5 [] (createEventBus emptyWorld).1
          [(6, []), (7, [])] (createEventBus emptyWorld).2).2
          (createEventBus emptyWorld).1
        = [⟨some "k", false,
            (useEvent_run "k" 5 [] (createEventBus emptyWorld).1
              [(6, []), (7, [])] (createEventBus emptyWorld).2).1.listenerId,
            .proxy (useEvent_run "k" 5 [] (createEventBus emptyWorld).1
              [(6, []), (7, [])] (createEventBus emptyWorld).2).1.cell⟩] ∧
      (emit (useEvent_run "k" 5 [] (createEventBus emptyWorld).1
          [(6, []), (7, [])] (createEventBus emptyWorld).2).2
          (createEventBus emptyWorld).1 "k" 9).log
        = (([(6, []), (7, [])].getLastD ((5 : HandlerId), ([] : List Nat))).1, "k", 9)
            :: (useEvent_run "k" 5 [] (createEventBus emptyWorld).1
                [(6, []), (7, [])] (createEventBus emptyWorld).2).2.log) :=
  ⟨by decide,
    useEvent_stable_proxy_invokes_latest "k" 5 [] (createEventBus emptyWorld).1
      [(6, []), (7, [])] (createEventBus emptyWorld).2 9 (by decide)⟩

/-- C6: mounting a persistent subscription to key `K` on a fresh bus,
emitting `K` with payload `p` (one invocation of the handler with `p`),
unmounting, then emitting `K` again leaves the handler's invocation log at
that single entry — the removed handler is invoked zero additional times. -/
theorem useEvent_unmount_stops_delivery (K : String) (h : HandlerId)
    (deps : List Nat) (p p2 : Payload) (w0 : World) :
    (emit (useEvent_mount K h deps (createEventBus w0).1
        (createEventBus w0).2).2 (createEventBus w0).1 K p).log
      = (h, K, p) :: w0.log ∧
    (emit
        (useEvent_unmount
          (useEvent_mount K h deps (createEventBus w0).1 (createEventBus w0).2).1
          (emit (useEvent_mount K h deps (createEventBus w0).1
            (createEventBus w0).2).2 (createEventBus w0).1 K p))
        (createEventBus w0).1 K p2).log
      = (h, K, p) :: w0.log := by
  constructor
  · simp [createEventBus, useEvent_mount, setCell, busOn, setBus, busSubs,
      emit, emitStep, invokeListener, assocGet]
  · simp [createEventBus, useEvent_mount, useEvent_unmount, setCell, busOn,
      setBus, busSubs, emit, emitStep, invokeListener, busOff, assocGet]

/-- C2 counterexample: on a concrete bus, mounting `useEventOnce` on key
`"e"` with handler 1 and re-rendering with handler 2 (same key, same bus)
makes a second low-level one-shot subscribe call and an unsubscribe call;
likewise `useEventAll` re-subscribes when only the handler changes — the
variants do not keep the low-level subscription across a handler change. -/
theorem useEventOnce_useEventAll_resubscribe_counterexample :
    subscribeOnceCallCount
        (useEventOnce_update
          (useEventOnce_mount "e" 1 (createEventBus emptyWorld).1
            (createEventBus emptyWorld).2).1
          "e" 2 (createEventBus emptyWorld).1
          (useEventOnce_mount "e" 1 (createEventBus emptyWorld).1
            (createEventBus emptyWorld).2).2).2.trace
        (createEventBus emptyWorld).1 "e" = 2 ∧
    unsubscribeCallCount
        (useEventOnce_update
          (useEventOnce_mount "e" 1 (createEventBus emptyWorld).1
            (createEventBus emptyWorld).2).1
          "e" 2 (createEventBus emptyWorld).1
          (useEventOnce_mount "e" 1 (createEventBus emptyWorld).1
            (createEventBus emptyWorld).2).2).2.trace
        (createEventBus emptyWorld).1 = 1 ∧
    subscribeAllCallCount
        (useEventAll_update
          (useEventAll_mount 1 (createEventBus emptyWorld).1
            (createEventBus emptyWorld).2).1
          2 (createEventBus emptyWorld).1
          (useEventAll_mount 1 (createEventBus emptyWorld).1
            (createEventBus emptyWorld).2).2).2.trace
        (createEventBus emptyWorld).1 = 2 ∧
    unsubscribeCallCount
        (useEventAll_update
          (useEventAll_mount 1 (createEventBus emptyWorld).1
            (createEventBus emptyWorld).2).1
          2 (createEventBus emptyWorld).1
          (useEventAll_mount 1 (createEventBus emptyWorld).1
            (createEventBus emptyWorld).2).2).2.trace
        (createEventBus emptyWorld).1 = 1 := by
  decide

/-- C2 as amended: when only the handler reference changes on the same
(event key, resolved bus) pair, `useEventOnce` and `useEventAll` do not
refresh a proxy target in place — their effects list the handler in the
dependency array, so the old low-level subscription is torn down and a new
one is made, registering the new handler directly under a fresh function
identity. -/
theorem useEventOnce_useEventAll_resubscribe_on_handler_change
    (event : String) (h h2 : HandlerId) (bus : BusId) (w : World)
    (hne : h2 ≠ h) :
    ((useEventOnce_update (useEventOnce_mount event h bus w).1 event h2 bus
        (useEventOnce_mount event h bus w).2).2.trace
      = .subscribeOnce bus event (w.nextId + 1) (.direct h2)
        :: .unsubscribe bus w.nextId
        :: .subscribeOnce bus event w.nextId (.direct h)
        :: w.trace ∧
      (useEventOnce_update (useEventOnce_mount event h bus w).1 event h2 bus
          (useEventOnce_mount event h bus w).2).1.listenerId
        ≠ (useEventOnce_mount event h bus w).1.listenerId) ∧
    ((useEventAll_update (useEventAll_mount h bus w).1 h2 bus
        (useEventAll_mount h bus w).2).2.trace
      = .subscribeAll bus (w.nextId + 1) (.direct h2)
        :: .unsubscribe bus w.nextId
        :: .subscribeAll bus w.nextId (.direct h)
        :: w.trace ∧
      (useEventAll_update (useEventAll_mount h bus w).1 h2 bus
          (useEventAll_mount h bus w).2).1.listenerId
        ≠ (useEventAll_mount h bus w).1.listenerId) := by
  have hne2 : ¬ (h = h2) := fun e => hne e.symm
  constructor
  · constructor
    · simp [useEventOnce_mount, useEventOnce_update, busOnce, busOff, setBus,
        busSubs, hne2]
    · simp [useEventOnce_mount, useEventOnce_update, busOnce, busOff, setBus,
        busSubs, hne2]
  · constructor
    · simp [useEventAll_mount, useEventAll_update, busOnAll, busOff, setBus,
        busSubs, hne2]
    · simp [useEventAll_mount, useEventAll_update, busOnAll, busOff, setBus,
        busSubs, hne2]

/-- Witness for the amended C2: handler 1 swapped for handler 2 on key
`"e"` and bus 0 in the empty world. -/
theorem useEventOnce_useEventAll_resubscribe_witness :
    (2 : HandlerId) ≠ 1 ∧
    (((useEventOnce_update (useEventOnce_mount "e" 1 0 emptyWorld).1 "e" 2 0
        (useEventOnce_mount "e" 1 0 emptyWorld).2).2.trace
      = .subscribeOnce 0 "e" (emptyWorld.nextId + 1) (.direct 2)
        :: .unsubscribe 0 emptyWorld.nextId
        :: .subscribeOnce 0 "e" emptyWorld.nextId (.direct 1)
        :: emptyWorld.trace ∧
      (useEventOnce_update (useEventOnce_mount "e" 1 0 emptyWorld).1 "e" 2 0
          (useEventOnce_mount "e" 1 0 emptyWorld).2).1.listenerId
        ≠ (useEventOnce_mount "e" 1 0 emptyWorld).1.listenerId) ∧
    ((useEventAll_update (useEventAll_mount 1 0 emptyWorld).1 2 0
        (useEventAll_mount 1 0 emptyWorld).2).2.trace
      = .subscribeAll 0 (emptyWorld.nextId + 1) (.direct 2)
        :: .unsubscribe 0 emptyWorld.nextId
        :: .subscribeAll 0 emptyWorld.nextId (.direct 1)
        :: emptyWorld.trace ∧
      (useEventAll_update (useEventAll_mount 1 0 emptyWorld).1 2 0
          (useEventAll_mount 1 0 emptyWorld).2).1.listenerId
        ≠ (useEventAll_mount 1 0 emptyWorld).1.listenerId)) :=
  ⟨by decide,
    useEventOnce_useEventAll_resubscribe_on_handler_change "e" 1 2 0 emptyWorld
      (by decide)⟩

/-- C3, behavior at the failing input: with no explicit instance and no
ambient provider, resolution constructs a fresh default-configured bus on
every render — two consecutive resolutions at the same call site yield two
distinct instances and two constructions, not at most one. -/
theorem useEventBusInstance_creates_on_every_render (w : World) :
    (useEventBusInstance none none w).1
        ≠ (useEventBusInstance none none (useEventBusInstance none none w).2).1 ∧
    createCount
        (useEventBusInstance none none
          (useEventBusInstance none none w).2).2.trace
      = createCount w.trace + 2 := by
  constructor
  · simp [useEventBusInstance, useEventBusContext, createEventBus]
  · simp [useEventBusInstance, useEventBusContext, createEventBus, createCount,
      isCreate]

/-- C4: bus resolution follows the deterministic precedence — an explicit
instance always wins (with or without an ambient provider), otherwise an
active ambient slot's value is used, otherwise a fresh default-configured
instance is constructed; resolution is total on all four input shapes, so
it never fails.  Moreover, under an ambient provider holding instance A,
a binding call passed explicit instance E resolves to E, and an emission
on A does not reach the handler bound via that call (the log is
unchanged). -/
theorem busResolution_precedence (e : BusId) (ctx : EventBusContextType)
    (w : World) (K : String) (hnd : HandlerId) (deps : List Nat)
    (p : Payload) :
    useEventBusInstance (some e) (some ctx) w = (e, w) ∧
    useEventBusInstance (some e) none w = (e, w) ∧
    useEventBusInstance none (some ctx) w = (ctx.eventBus, w) ∧
    useEventBusInstance none none w = createEventBus w ∧
    (useEventBusInstance (some ((createEventBus (createEventBus w).2).1))
        (some ⟨(createEventBus w).1⟩)
        (createEventBus (createEventBus w).2).2).1
      = (createEventBus (createEventBus w).2).1 ∧
    (emit
        (useEvent_mount K hnd deps
          (useEventBusInstance (some ((createEventBus (createEventBus w).2).1))
            (some ⟨(createEventBus w).1⟩)
            (createEventBus (createEventBus w).2).2).1
          (useEventBusInstance (some ((createEventBus (createEventBus w).2).1))
            (some ⟨(createEventBus w).1⟩)
            (createEventBus (createEventBus w).2).2).2).2
        (createEventBus w).1 K p).log
      = (useEvent_mount K hnd deps
          (useEventBusInstance (some ((createEventBus (createEventBus w).2).1))
            (some ⟨(createEventBus w).1⟩)
            (createEventBus (createEventBus w).2).2).1
          (useEventBusInstance (some ((createEventBus (createEventBus w).2).1))
            (some ⟨(createEventBus w).1⟩)
            (createEventBus (createEventBus w).2).2).2).2.log := by
  refine ⟨rfl, rfl, rfl, rfl, rfl, ?_⟩
  simp [useEventBusInstance, useEventBusContext, createEventBus,
    useEvent_mount, setCell, busOn, setBus, busSubs, emit, emitStep,
    invokeListener, assocGet, Nat.succ_ne_self]

/-- C7: calling the ambient-instance accessor outside any scope provider
throws synchronously at the call site — both `useEventBusContext` and
`useCurrentEventBus` produce the thrown usage-contract error, fabricating
no instance — while inside a provider each returns the provider's current
bus without error. -/
theorem contextAccessor_throws_outside_provider (c : EventBusContextType) :
    useEventBusContext none
        = .error "useEventBusContext must be used within an EventBusProvider" ∧
    useCurrentEventBus none
        = .error "useEventBusContext must be used within an EventBusProvider" ∧
    useEventBusContext (some c) = .ok c ∧
    useCurrentEventBus (some c) = .ok c.eventBus :=
  ⟨rfl, rfl, rfl, rfl⟩

/-- C8: every method of the namespace facade delegates to the
corresponding primitive of the underlying bus with the event key equal to
the prefix, a colon, and the event, and the other arguments unchanged; in
particular `createEventNamespace "user" B` subscribing to `"login"`
produces a subscription on B for the literal key `"user:login"`, and
emitting `"user:login"` on B directly invokes the handler. -/
theorem createEventNamespace_prefixes (ns ev : String) (bus : BusId)
    (ln : Listener) (hnd : HandlerId) (p : Payload) (w : World) :
    (createEventNamespace ns bus).onM ev ln w
        = busOn w bus (ns ++ ":" ++ ev) ln ∧
    (createEventNamespace ns bus).off ev ln w
        = busOffFn w bus (ns ++ ":" ++ ev) ln ∧
    (createEventNamespace ns bus).emit ev p w
        = emit w bus (ns ++ ":" ++ ev) p ∧
    (createEventNamespace ns bus).once ev ln w
        = busOnce w bus (ns ++ ":" ++ ev) ln ∧
    busSubs ((createEventNamespace "user" (createEventBus w).1).onM "login"
        (.direct hnd) (createEventBus w).2).2 (createEventBus w).1
      = [⟨some "user:login", false, (createEventBus w).2.nextId, .direct hnd⟩] ∧
    (emit ((createEventNamespace "user" (createEventBus w).1).onM "login"
        (.direct hnd) (createEventBus w).2).2 (createEventBus w).1
        "user:login" p).log
      = (hnd, "user:login", p)
          :: ((createEventNamespace "user" (createEventBus w).1).onM "login"
              (.direct hnd) (createEventBus w).2).2.log := by
  have hs : ("user" ++ ":" ++ "login" : String) = "user:login" := rfl
  refine ⟨rfl, rfl, rfl, rfl, ?_, ?_⟩
  · simp [createEventNamespace, createEventBus, busOn, setBus, busSubs,
      assocGet, hs]
  · simp [createEventNamespace, createEventBus, busOn, setBus, busSubs,
      emit, emitStep, invokeListener, assocGet, hs]

/-- C10: the scope-provider node picks the bus it broadcasts with the
precedence explicit `eventBus` prop, else a new instance constructed from
the `config` prop, else the well-known global instance — and the memoized
choice is not recomputed on a re-render whose `eventBus` and `config`
props (and the constant global instance) are unchanged. -/
theorem eventBusProvider_bus_selection (b g : BusId) (cfg : Nat)
    (externalEventBus : Option BusId) (config : Option Nat) (w : World) :
    providerChooseBus (some b) config g w = (b, w) ∧
    providerChooseBus none (some cfg) g w = createEventBus w ∧
    providerChooseBus none none g w = (g, w) ∧
    EventBusProvider_render
        (some (EventBusProvider_render none externalEventBus config g w).1)
        externalEventBus config g
        (EventBusProvider_render none externalEventBus config g w).2
      = ((EventBusProvider_render none externalEventBus config g w).1,
         (EventBusProvider_render none externalEventBus config g w).2) := by
  refine ⟨rfl, rfl, rfl, ?_⟩
  simp [EventBusProvider_render]

/-- The in-place `emit` slot update leaves every other key's binding
unchanged. -/
theorem assocGet_updateEmitSlot_ne (l : List (Nat × BusObject)) (b : Nat)
    (b2 : Nat) (hne : b2 ≠ b) :
    assocGet (updateEmitSlot l b) b2 = assocGet l b2 := by
  induction l with
  | nil => rfl
  | cons a rest ih =>
    obtain ⟨a1, a2⟩ := a
    by_cases ha : a1 = b
    · subst ha
      have h2 : ¬ a1 = b2 := fun e => hne e.symm
      simp [updateEmitSlot, assocGet, h2, ih]
    · by_cases hb2 : a1 = b2
      · subst hb2
        simp [updateEmitSlot, assocGet, ha]
      · simp [updateEmitSlot, assocGet, ha, hb2, ih]

/-- The in-place `emit` slot update wraps exactly the `emit` slot of the
binding at the updated key. -/
theorem assocGet_updateEmitSlot_self (l : List (Nat × BusObject)) (b : Nat)
    (v : BusObject) (h : assocGet l b = some v) :
    assocGet (updateEmitSlot l b) b
      = some { v with emitSlot := .logged v.emitSlot } := by
  induction l with
  | nil => simp [assocGet] at h
  | cons a rest ih =>
    obtain ⟨a1, a2⟩ := a
    by_cases ha : a1 = b
    · subst ha
      simp [assocGet] at h
      subst h
      simp [updateEmitSlot, assocGet]
    · simp [assocGet, ha] at h
      simp [updateEmitSlot, assocGet, ha, ih h]

/-- C9: the logging wrapper returns the very same bus instance; with
`enabled = false` the heap is untouched (no field of any bus modified);
with `enabled = true` only that bus's `emit` slot is replaced — it becomes
the logging wrapper around the original implementation while the on, off,
once and onAll capabilities and every other bus are unchanged — and
running the wrapped emit logs the event key and payload and then delegates
to the original implementation with the same key and payload. -/
theorem withEventLogger_in_place (heap : List (Nat × BusObject)) (b : Nat)
    (obj : BusObject) (b2 : Nat) (hb : assocGet heap b = some obj)
    (hne : b2 ≠ b) (k : String) (p : Payload) (m : EmitImpl) :
    withEventLogger heap b false = (b, heap) ∧
    (withEventLogger heap b true).1 = b ∧
    assocGet (withEventLogger heap b true).2 b
        = some { obj with emitSlot := .logged obj.emitSlot } ∧
    (BusObject.mk obj.onSlot obj.offSlot obj.onceSlot obj.onAllSlot
        (.logged obj.emitSlot)
      = { obj with emitSlot := .logged obj.emitSlot }) ∧
    assocGet (withEventLogger heap b true).2 b2 = assocGet heap b2 ∧
    runEmit (.logged m) k p = ((k, p) :: (runEmit m k p).1, (runEmit m k p).2) := by
  refine ⟨rfl, rfl, ?_, rfl, ?_, rfl⟩
  · simp only [withEventLogger]
    exact assocGet_updateEmitSlot_self heap b obj hb
  · simp only [withEventLogger]
    exact assocGet_updateEmitSlot_ne heap b b2 hne

/-- Witness for C9: a one-bus heap whose bus has base implementations in
all slots. -/
theorem withEventLogger_in_place_witness :
    assocGet [(0, BusObject.mk 1 2 3 4 .base)] 0
        = some (BusObject.mk 1 2 3 4 .base) ∧
    (5 : Nat) ≠ 0 ∧
    (withEventLogger [(0, BusObject.mk 1 2 3 4 .base)] 0 false
        = (0, [(0, BusObject.mk 1 2 3 4 .base)]) ∧
      (withEventLogger [(0, BusObject.mk 1 2 3 4 .base)] 0 true).1 = 0 ∧
      assocGet (withEventLogger [(0, BusObject.mk 1 2 3 4 .base)] 0 true).2 0
        = some { BusObject.mk 1 2 3 4 .base with
                  emitSlot := .logged (BusObject.mk 1 2 3 4 .base).emitSlot } ∧
      (BusObject.mk (BusObject.mk 1 2 3 4 .base).onSlot
          (BusObject.mk 1 2 3 4 .base).offSlot
          (BusObject.mk 1 2 3 4 .base).onceSlot
          (BusObject.mk 1 2 3 4 .base).onAllSlot
          (.logged (BusObject.mk 1 2 3 4 .base).emitSlot)
        = { BusObject.mk 1 2 3 4 .base with
              emitSlot := .logged (BusObject.mk 1 2 3 4 .base).emitSlot }) ∧
      assocGet (withEventLogger [(0, BusObject.mk 1 2 3 4 .base)] 0 true).2 5
        = assocGet [(0, BusObject.mk 1 2 3 4 .base)] 5 ∧
      runEmit (.logged .base) "e" 7
        = (("e", 7) :: (runEmit .base "e" 7).1, (runEmit .base "e" 7).2)) :=
  ⟨by decide, by decide,
    withEventLogger_in_place [(0, BusObject.mk 1 2 3 4 .base)] 0
      (BusObject.mk 1 2 3 4 .base) 5 (by decide) (by decide) "e" 7 .base⟩

end Vibus
